import Mathlib

/-!
Verification of the vendor-summary aggregation-and-metrics pipeline
(scripts/get_vendor_summary.py of the Vendor Performance Analysis repository).

The pipeline is shallowly embedded:
* numeric cell values are rationals (the source works with finite floats;
  results that would be non-finite floats, such as a division by a zero that
  survives the zero-substitution, are modelled as null cells);
* a pandas DataFrame is a list of named columns, each a list of cells
  (null / numeric / text), mirroring the column-wise operations of the source;
* the SQL aggregation query is modelled on typed fact-table rows with
  executable group-by and left-join operations;
* numpy/pandas rounding (round-half-to-even at a decimal precision) is
  modelled by roundQ.
-/

/-- A single cell of a pandas DataFrame: missing (NaN/None), numeric, or text. -/
inductive Cell where
  | null : Cell
  | num : ℚ → Cell
  | str : String → Cell
deriving DecidableEq, Repr

/-- A named column of a DataFrame. -/
structure Col where
  name : String
  cells : List Cell
deriving DecidableEq, Repr

/-- A DataFrame: an ordered list of named columns. -/
structure DataFrame where
  cols : List Col
deriving DecidableEq, Repr

/-- Configuration options read by the pipeline, with the defaults the source
applies at each `config.get(...)` call site:
`missing_values.column_overrides / numeric_strategy / text_strategy`,
`metrics.profit_margin.{zero_replacement, decimal_places}` (pm_*),
`metrics.stock_turnover.{...}` (st_*),
`metrics.sales_to_purchase_ratio.{...}` (spr_*),
`output.summary_table` and `etl.load_mode`. -/
structure Config where
  column_overrides : List (String × String) := []
  numeric_strategy : String := "zero"
  text_strategy : String := "unknown"
  pm_zero_replacement : ℚ := 1
  pm_decimal_places : ℕ := 2
  st_zero_replacement : ℚ := 1
  st_decimal_places : ℕ := 4
  spr_zero_replacement : ℚ := 1
  spr_decimal_places : ℕ := 4
  summary_table : String := "vendor_sales_summary"
  load_mode : String := "replace"

/-- Python/numpy round(x, p): round half to even at p decimal places. -/
def roundQ (p : ℕ) (x : ℚ) : ℚ :=
  let y := x * 10 ^ p
  let f : ℤ := ⌊y⌋
  let n : ℤ :=
    if y - f < 1/2 then f
    else if (1:ℚ)/2 < y - f then f + 1
    else if f % 2 = 0 then f else f + 1
  (n : ℚ) / 10 ^ p

/-- Column access df[name]: the cells of the first column called name. -/
def getCol (df : DataFrame) (n : String) : Option (List Cell) :=
  (df.cols.find? (fun c => c.name = n)).map Col.cells

/-- Column assignment df[name] = cells: overwrite the column in place if it
exists, otherwise append it at the end (pandas semantics). -/
def setCol (df : DataFrame) (n : String) (cells : List Cell) : DataFrame :=
  if df.cols.any (fun c => c.name = n) then
    ⟨df.cols.map (fun c => if c.name = n then ⟨n, cells⟩ else c)⟩
  else
    ⟨df.cols ++ [⟨n, cells⟩]⟩

/-- One cell of df[name], by row position. -/
def getCell (df : DataFrame) (n : String) (i : ℕ) : Option Cell :=
  (getCol df n).bind (fun cells => cells[i]?)

/-! ## Missing-Value Resolver (handle_missing_values) -/

/-- Number of null cells in a column (df[col].isnull().sum()). -/
def nullCount (cells : List Cell) : ℕ :=
  cells.countP (fun c => c = Cell.null)

/-- pd.api.types.is_numeric_dtype, decided from contents as read_sql
materializes them: a column holding at least one numeric value and no text
becomes a numeric (float) column whose NULLs are NaN; a column that is NULL
in every row stays object dtype holding None, which is not numeric, and a
column with any text is object dtype as well. -/
def isNumericCol (cells : List Cell) : Bool :=
  cells.any (fun c => match c with | .num _ => true | _ => false)
    && cells.all (fun c => match c with | .str _ => false | _ => true)

/-- The non-null numeric values of a column (what pandas mean/median skip). -/
def numericVals (cells : List Cell) : List ℚ :=
  cells.filterMap (fun c => match c with | .num q => some q | _ => none)

/-- df[col].mean(): arithmetic mean of the non-null values; NaN (none) when
there are none. -/
def colMean (cells : List Cell) : Option ℚ :=
  let vs := numericVals cells
  if vs.length = 0 then none else some (vs.sum / vs.length)

/-- df[col].median(): middle of the sorted non-null values (mean of the two
middles for an even count); NaN (none) when there are none. -/
def colMedian (cells : List Cell) : Option ℚ :=
  let vs := List.insertionSort (fun a b : ℚ => a ≤ b) (numericVals cells)
  if vs.length = 0 then none
  else if vs.length % 2 = 1 then some (vs.getD (vs.length / 2) 0)
  else some ((vs.getD (vs.length / 2 - 1) 0 + vs.getD (vs.length / 2) 0) / 2)

/-- df[col].fillna(v): replace every null cell by v. -/
def fillNulls (v : Cell) (cells : List Cell) : List Cell :=
  cells.map (fun c => if c = Cell.null then v else c)

/-- The if/elif chain applying one strategy to one column. A mean/median of an
all-null column is NaN and fillna(NaN) leaves the nulls in place. The drop
branch only logs a warning; flag and any unrecognized strategy name fall
through the chain with the column untouched. -/
def applyStrategy (s : String) (cells : List Cell) : List Cell :=
  if s = "zero" then fillNulls (Cell.num 0) cells
  else if s = "mean" then
    match colMean cells with
    | some m => fillNulls (Cell.num m) cells
    | none => cells
  else if s = "median" then
    match colMedian cells with
    | some m => fillNulls (Cell.num m) cells
    | none => cells
  else if s = "unknown" then fillNulls (Cell.str "UNKNOWN") cells
  else cells

/-- Strategy selection: explicit per-column override first, then the numeric
or text default according to the column dtype. -/
def selectStrategy (cfg : Config) (n : String) (cells : List Cell) : String :=
  match List.lookup n cfg.column_overrides with
  | some s => s
  | none => if isNumericCol cells then cfg.numeric_strategy else cfg.text_strategy

/-- Per-column body of the resolver loop: a column with no nulls is skipped,
otherwise the selected strategy is applied to it. -/
def resolveCol (cfg : Config) (c : Col) : Col :=
  if nullCount c.cells = 0 then c
  else { c with cells := applyStrategy (selectStrategy cfg c.name c.cells) c.cells }

/-- handle_missing_values: the loop over df.columns. Each column is handled
independently (a fill never reads another column). -/
def handle_missing_values (cfg : Config) (df : DataFrame) : DataFrame :=
  ⟨df.cols.map (resolveCol cfg)⟩

/-! ## Metrics Calculator (calculate_metrics) -/

/-- Elementwise subtraction of two cells; NaN (null) propagates. -/
def cellSub : Cell → Cell → Cell
  | .num a, .num b => .num (a - b)
  | _, _ => .null

/-- Series.replace(0, zr) on one cell: an exact numeric 0 becomes zr. -/
def cellReplace0 (zr : ℚ) : Cell → Cell
  | .num a => if a = 0 then .num zr else .num a
  | c => c

/-- Elementwise division; a zero divisor would give a non-finite float,
modelled as null. NaN propagates. -/
def cellDiv : Cell → Cell → Cell
  | .num a, .num b => if b = 0 then .null else .num (a / b)
  | _, _ => .null

/-- Elementwise multiplication by 100. -/
def cellMul100 : Cell → Cell
  | .num a => .num (a * 100)
  | _ => .null

/-- Series.round(p) on one cell. -/
def cellRound (p : ℕ) : Cell → Cell
  | .num a => .num (roundQ p a)
  | _ => .null

/-- calculate_metrics: appends GrossProfit, ProfitMargin, StockTurnover and
Sales_To_Purchase_Ratio. Each derived series is an elementwise function of
the operand columns read from the frame; the source assigns the four
sequentially, and the only derived column a later step reads back
(df['GrossProfit'] in the ProfitMargin step) is exactly the gp series just
assigned, so the assignments commute into the final setCol chain. A missing
operand column is the source's KeyError, modelled as none. -/
def calculate_metrics (cfg : Config) (df : DataFrame) : Option DataFrame :=
  match getCol df "TotalSalesDollars", getCol df "TotalPurchaseDollars",
        getCol df "TotalSalesQuantity", getCol df "TotalPurchaseQuantity" with
  | some tsd, some tpd, some tsq, some tpq =>
    let gp := List.zipWith cellSub tsd tpd
    let pm := (List.zipWith cellDiv gp (tsd.map (cellReplace0 cfg.pm_zero_replacement))).map
        (fun c => cellRound cfg.pm_decimal_places (cellMul100 c))
    let st := (List.zipWith cellDiv tsq (tpq.map (cellReplace0 cfg.st_zero_replacement))).map
        (cellRound cfg.st_decimal_places)
    let spr := (List.zipWith cellDiv tsd (tpd.map (cellReplace0 cfg.spr_zero_replacement))).map
        (cellRound cfg.spr_decimal_places)
    some (setCol (setCol (setCol (setCol df "GrossProfit" gp) "ProfitMargin" pm)
      "StockTurnover" st) "Sales_To_Purchase_Ratio" spr)
  | _, _, _, _ => none

/-! ## Aggregation Query Engine (create_vendor_summary)

Typed model of the fact tables and of the SQL query with its three CTEs.
Group-by is modelled by deduplicating the key list and summing the group of
each key, so each key yields exactly one aggregate row. -/

/-- One purchases row (the columns the query touches). -/
structure PurchaseRec where
  VendorNumber : ℤ
  VendorName : String
  Brand : ℤ
  Description : String
  PurchasePrice : ℚ
  Quantity : ℚ
  Dollars : ℚ
deriving DecidableEq, Repr

/-- One purchase_prices row (the columns the query touches). -/
structure PurchasePriceRec where
  Brand : ℤ
  Volume : ℚ
  Price : ℚ
deriving DecidableEq, Repr

/-- One sales row (the columns the query touches). -/
structure SalesRec where
  VendorNo : ℤ
  Brand : ℤ
  SalesQuantity : ℚ
  SalesDollars : ℚ
  SalesPrice : ℚ
  ExciseTax : ℚ
deriving DecidableEq, Repr

/-- One vendor_invoice row (the columns the query touches). -/
structure InvoiceRec where
  VendorNumber : ℤ
  Freight : ℚ
deriving DecidableEq, Repr

/-- The four raw fact tables. -/
structure Tables where
  purchases : List PurchaseRec
  purchase_prices : List PurchasePriceRec
  sales : List SalesRec
  vendor_invoice : List InvoiceRec
deriving Repr

/-- FreightSummary CTE: vendor_invoice grouped by VendorNumber, SUM(Freight). -/
structure FreightRow where
  VendorNumber : ℤ
  FreightCost : ℚ
deriving DecidableEq, Repr

def freightSummary (inv : List InvoiceRec) : List FreightRow :=
  ((inv.map (fun r => r.VendorNumber)).dedup).map (fun v =>
    ⟨v, (((inv.filter (fun r => r.VendorNumber = v)).map (fun r => r.Freight))).sum⟩)

/-- The seven-column GROUP BY key of the PurchaseSummary CTE. -/
structure PKey where
  VendorNumber : ℤ
  VendorName : String
  Brand : ℤ
  Description : String
  PurchasePrice : ℚ
  Volume : ℚ
  ActualPrice : ℚ
deriving DecidableEq, Repr

/-- One PurchaseSummary row. -/
structure PSRow where
  VendorNumber : ℤ
  VendorName : String
  Brand : ℤ
  Description : String
  PurchasePrice : ℚ
  Volume : ℚ
  ActualPrice : ℚ
  TotalPurchaseQuantity : ℚ
  TotalPurchaseDollars : ℚ
deriving DecidableEq, Repr

/-- purchases JOIN purchase_prices USING(Brand) WHERE p.PurchasePrice > 0. -/
def purchaseJoin (ps : List PurchaseRec) (pps : List PurchasePriceRec) :
    List (PurchaseRec × PurchasePriceRec) :=
  (ps.filter (fun p => 0 < p.PurchasePrice)).flatMap (fun p =>
    (pps.filter (fun pp => pp.Brand = p.Brand)).map (fun pp => (p, pp)))

def pkey (x : PurchaseRec × PurchasePriceRec) : PKey :=
  ⟨x.1.VendorNumber, x.1.VendorName, x.1.Brand, x.1.Description,
   x.1.PurchasePrice, x.2.Volume, x.2.Price⟩

/-- PurchaseSummary CTE: the filtered join grouped by the seven key columns,
with SUM(Quantity) and SUM(Dollars). -/
def purchaseSummary (ps : List PurchaseRec) (pps : List PurchasePriceRec) :
    List PSRow :=
  let j := purchaseJoin ps pps
  ((j.map pkey).dedup).map (fun k =>
    let grp := j.filter (fun x => pkey x = k)
    ⟨k.VendorNumber, k.VendorName, k.Brand, k.Description, k.PurchasePrice,
     k.Volume, k.ActualPrice,
     (grp.map (fun x => x.1.Quantity)).sum,
     (grp.map (fun x => x.1.Dollars)).sum⟩)

/-- One SalesSummary row. -/
structure SSRow where
  VendorNo : ℤ
  Brand : ℤ
  TotalSalesQuantity : ℚ
  TotalSalesDollars : ℚ
  TotalSalesPrice : ℚ
  TotalExciseTax : ℚ
deriving DecidableEq, Repr

/-- SalesSummary CTE: sales grouped by (VendorNo, Brand) with four sums. -/
def salesSummary (s : List SalesRec) : List SSRow :=
  ((s.map (fun r => (r.VendorNo, r.Brand))).dedup).map (fun k =>
    let grp := s.filter (fun r => (r.VendorNo, r.Brand) = k)
    ⟨k.1, k.2,
     (grp.map (fun r => r.SalesQuantity)).sum,
     (grp.map (fun r => r.SalesDollars)).sum,
     (grp.map (fun r => r.SalesPrice)).sum,
     (grp.map (fun r => r.ExciseTax)).sum⟩)

/-- One left row of a SQL LEFT JOIN: paired with every matching right row, or
with none when no right row matches. -/
def joinOne {α β : Type} (r : List β) (onM : α → β → Bool) (a : α) :
    List (α × Option β) :=
  let ms := r.filter (onM a)
  if ms.isEmpty then [(a, none)] else ms.map (fun b => (a, some b))

/-- SQL LEFT JOIN. -/
def leftJoin {α β : Type} (l : List α) (r : List β) (onM : α → β → Bool) :
    List (α × Option β) :=
  l.flatMap (joinOne r onM)

/-- One row of the final SELECT: the PurchaseSummary columns plus the nullable
sales and freight columns. -/
structure FinalRow where
  VendorNumber : ℤ
  VendorName : String
  Brand : ℤ
  Description : String
  PurchasePrice : ℚ
  Volume : ℚ
  ActualPrice : ℚ
  TotalPurchaseQuantity : ℚ
  TotalPurchaseDollars : ℚ
  TotalSalesQuantity : Option ℚ
  TotalSalesDollars : Option ℚ
  TotalSalesPrice : Option ℚ
  TotalExciseTax : Option ℚ
  FreightCost : Option ℚ
deriving DecidableEq, Repr

def mkFinal (p : PSRow) (s : Option SSRow) (f : Option FreightRow) : FinalRow :=
  { VendorNumber := p.VendorNumber, VendorName := p.VendorName,
    Brand := p.Brand, Description := p.Description,
    PurchasePrice := p.PurchasePrice, Volume := p.Volume,
    ActualPrice := p.ActualPrice,
    TotalPurchaseQuantity := p.TotalPurchaseQuantity,
    TotalPurchaseDollars := p.TotalPurchaseDollars,
    TotalSalesQuantity := s.map (fun x => x.TotalSalesQuantity),
    TotalSalesDollars := s.map (fun x => x.TotalSalesDollars),
    TotalSalesPrice := s.map (fun x => x.TotalSalesPrice),
    TotalExciseTax := s.map (fun x => x.TotalExciseTax),
    FreightCost := f.map (fun x => x.FreightCost) }

/-- create_vendor_summary: PurchaseSummary LEFT JOIN SalesSummary on
(VendorNumber, Brand), LEFT JOIN FreightSummary on VendorNumber,
ORDER BY TotalPurchaseDollars DESC. -/
def create_vendor_summary (t : Tables) : List FinalRow :=
  let fs := freightSummary t.vendor_invoice
  let ps := purchaseSummary t.purchases t.purchase_prices
  let ss := salesSummary t.sales
  let j1 := leftJoin ps ss
    (fun p s => p.VendorNumber = s.VendorNo ∧ p.Brand = s.Brand)
  let j2 := leftJoin j1 fs (fun pq f => pq.1.VendorNumber = f.VendorNumber)
  let rows := j2.map (fun x => mkFinal x.1.1 x.1.2 x.2)
  List.insertionSort
    (fun a b => b.TotalPurchaseDollars ≤ a.TotalPurchaseDollars) rows

/-! ## Pipeline Orchestrator (clean_data, run_summary_pipeline) -/

def optCell : Option ℚ → Cell
  | none => Cell.null
  | some q => Cell.num q

/-- Materialize the query result as a DataFrame, in SELECT column order
(pd.read_sql_query). Absent sales/freight values become nulls. -/
def toFrame (rows : List FinalRow) : DataFrame :=
  ⟨[⟨"VendorNumber", rows.map (fun r => Cell.num r.VendorNumber)⟩,
    ⟨"VendorName", rows.map (fun r => Cell.str r.VendorName)⟩,
    ⟨"Brand", rows.map (fun r => Cell.num r.Brand)⟩,
    ⟨"Description", rows.map (fun r => Cell.str r.Description)⟩,
    ⟨"PurchasePrice", rows.map (fun r => Cell.num r.PurchasePrice)⟩,
    ⟨"Volume", rows.map (fun r => Cell.num r.Volume)⟩,
    ⟨"ActualPrice", rows.map (fun r => Cell.num r.ActualPrice)⟩,
    ⟨"TotalPurchaseQuantity", rows.map (fun r => Cell.num r.TotalPurchaseQuantity)⟩,
    ⟨"TotalPurchaseDollars", rows.map (fun r => Cell.num r.TotalPurchaseDollars)⟩,
    ⟨"TotalSalesQuantity", rows.map (fun r => optCell r.TotalSalesQuantity)⟩,
    ⟨"TotalSalesDollars", rows.map (fun r => optCell r.TotalSalesDollars)⟩,
    ⟨"TotalSalesPrice", rows.map (fun r => optCell r.TotalSalesPrice)⟩,
    ⟨"TotalExciseTax", rows.map (fun r => optCell r.TotalExciseTax)⟩,
    ⟨"FreightCost", rows.map (fun r => optCell r.FreightCost)⟩]⟩

/-- Whitespace trimming of the designated text identity columns. The source
does astype(str).str.strip(); in the frames this stage receives, those two
columns hold strings, so only the strip is modelled. -/
def trimTextCols (df : DataFrame) : DataFrame :=
  ⟨df.cols.map (fun c =>
    if c.name = "VendorName" ∨ c.name = "Description" then
      { c with cells := c.cells.map (fun x => match x with
          | Cell.str s => Cell.str s.trim
          | x => x) }
    else c)⟩

/-- clean_data: Volume type conversion (a KeyError if the column is absent;
numeric cells are unchanged by astype float), then missing-value handling,
then text trimming, then the metrics. -/
def clean_data (cfg : Config) (df : DataFrame) : Option DataFrame :=
  match getCol df "Volume" with
  | none => none
  | some _ => calculate_metrics cfg (trimTextCols (handle_missing_values cfg df))

/-- Observable outcome of one pipeline run: the aggregated rows, whether the
empty-result warning fired, the cleaned frame (none when that stage was
skipped or failed), and the persistence call as (table name, to_sql
if_exists mode); none when nothing was persisted. -/
structure RunOutcome where
  aggregated : List FinalRow
  warnedEmpty : Bool
  cleaned : Option DataFrame
  persisted : Option (String × String)
deriving DecidableEq, Repr

/-- run_summary_pipeline: aggregate; on an empty result warn and return it at
once; otherwise clean and persist with to_sql(..., if_exists='replace'). -/
def run_summary_pipeline (cfg : Config) (t : Tables) : RunOutcome :=
  let sdf := create_vendor_summary t
  if sdf.isEmpty then
    { aggregated := sdf, warnedEmpty := true, cleaned := none, persisted := none }
  else
    match clean_data cfg (toFrame sdf) with
    | none => { aggregated := sdf, warnedEmpty := false, cleaned := none,
                persisted := none }
    | some d => { aggregated := sdf, warnedEmpty := false, cleaned := some d,
                  persisted := some (cfg.summary_table, "replace") }

/-! ## Helper lemmas: resolver -/

theorem resolveCol_name (cfg : Config) (c : Col) : (resolveCol cfg c).name = c.name := by
  unfold resolveCol
  split <;> rfl

theorem applyStrategy_length (s : String) (cells : List Cell) :
    (applyStrategy s cells).length = cells.length := by
  unfold applyStrategy
  repeat' split
  all_goals simp [fillNulls]

theorem resolveCol_cells_length (cfg : Config) (c : Col) :
    (resolveCol cfg c).cells.length = c.cells.length := by
  unfold resolveCol
  split
  · rfl
  · exact applyStrategy_length _ _

theorem nullCount_fillNulls (v : Cell) (hv : v ≠ Cell.null) (cells : List Cell) :
    nullCount (fillNulls v cells) = 0 := by
  unfold nullCount fillNulls
  rw [List.countP_eq_zero]
  intro a ha
  simp only [List.mem_map] at ha
  obtain ⟨b, _, rfl⟩ := ha
  by_cases hb : b = Cell.null <;> simp [hb, hv]

theorem colMean_isSome (cells : List Cell) (q : ℚ) (h : Cell.num q ∈ cells) :
    ∃ m, colMean cells = some m := by
  have hq : q ∈ numericVals cells := List.mem_filterMap.2 ⟨Cell.num q, h, rfl⟩
  have hne : (numericVals cells).length ≠ 0 :=
    Nat.pos_iff_ne_zero.mp (List.length_pos.2 (List.ne_nil_of_mem hq))
  refine ⟨(numericVals cells).sum / ((numericVals cells).length : ℚ), ?_⟩
  simp [colMean, hne]

theorem colMedian_isSome (cells : List Cell) (q : ℚ) (h : Cell.num q ∈ cells) :
    ∃ m, colMedian cells = some m := by
  have hq : q ∈ numericVals cells := List.mem_filterMap.2 ⟨Cell.num q, h, rfl⟩
  have hlen : (List.insertionSort (fun a b : ℚ => a ≤ b) (numericVals cells)).length
      = (numericVals cells).length := (List.perm_insertionSort _ _).length_eq
  have hne : (List.insertionSort (fun a b : ℚ => a ≤ b) (numericVals cells)).length ≠ 0 := by
    rw [hlen]
    exact Nat.pos_iff_ne_zero.mp (List.length_pos.2 (List.ne_nil_of_mem hq))
  simp only [colMedian]
  rw [if_neg hne]
  split_ifs <;> exact ⟨_, rfl⟩

/-! ## C8 -/

/-- C8: handle_missing_values returns a frame with exactly the same number of
columns, the same column names, and the same number of rows in every column
as its input; no strategy (including drop) removes a row or a column. -/
theorem c8_shape_preserved (cfg : Config) (df : DataFrame) :
    (handle_missing_values cfg df).cols.length = df.cols.length
    ∧ (handle_missing_values cfg df).cols.map Col.name = df.cols.map Col.name
    ∧ (handle_missing_values cfg df).cols.map (fun c => c.cells.length)
        = df.cols.map (fun c => c.cells.length) := by
  refine ⟨by simp [handle_missing_values], ?_, ?_⟩
  · unfold handle_missing_values
    rw [List.map_map]
    exact List.map_congr_left (fun c _ => resolveCol_name cfg c)
  · unfold handle_missing_values
    rw [List.map_map]
    exact List.map_congr_left (fun c _ => resolveCol_cells_length cfg c)

/-! ## C9 -/

/-- C9: for a column holding at least one null the applied strategy follows
the precedence override > numeric default > text default, and a column with
zero nulls is left entirely untouched. -/
theorem c9_strategy_precedence (cfg : Config) (df : DataFrame) (i : ℕ) (c : Col)
    (s : String) (hc : df.cols[i]? = some c) :
    (nullCount c.cells = 0 → (handle_missing_values cfg df).cols[i]? = some c)
    ∧ (nullCount c.cells ≠ 0 → List.lookup c.name cfg.column_overrides = some s →
        (handle_missing_values cfg df).cols[i]?
          = some ⟨c.name, applyStrategy s c.cells⟩)
    ∧ (nullCount c.cells ≠ 0 → List.lookup c.name cfg.column_overrides = none →
        isNumericCol c.cells = true →
        (handle_missing_values cfg df).cols[i]?
          = some ⟨c.name, applyStrategy cfg.numeric_strategy c.cells⟩)
    ∧ (nullCount c.cells ≠ 0 → List.lookup c.name cfg.column_overrides = none →
        isNumericCol c.cells = false →
        (handle_missing_values cfg df).cols[i]?
          = some ⟨c.name, applyStrategy cfg.text_strategy c.cells⟩) := by
  have hmap : (handle_missing_values cfg df).cols[i]? = some (resolveCol cfg c) := by
    simp [handle_missing_values, List.getElem?_map, hc]
  refine ⟨fun h0 => ?_, fun h0 ho => ?_, fun h0 ho hn => ?_, fun h0 ho hn => ?_⟩
  · rw [hmap, resolveCol, if_pos h0]
  · rw [hmap, resolveCol, if_neg h0, selectStrategy, ho]
  · rw [hmap, resolveCol, if_neg h0, selectStrategy, ho]
    simp [hn]
  · rw [hmap, resolveCol, if_neg h0, selectStrategy, ho]
    simp [hn]

def dfW9 : DataFrame := ⟨[⟨"FreightCost", [Cell.null, Cell.num 3]⟩]⟩

def cfgW9 : Config := { column_overrides := [("FreightCost", "median")] }

/-- Witness for C9 at a concrete frame and override configuration. -/
theorem c9_strategy_precedence_witness :
    (nullCount [Cell.null, Cell.num 3] = 0 →
      (handle_missing_values cfgW9 dfW9).cols[0]? = some ⟨"FreightCost", [Cell.null, Cell.num 3]⟩)
    ∧ (nullCount [Cell.null, Cell.num 3] ≠ 0 →
        List.lookup "FreightCost" cfgW9.column_overrides = some "median" →
        (handle_missing_values cfgW9 dfW9).cols[0]?
          = some ⟨"FreightCost", applyStrategy "median" [Cell.null, Cell.num 3]⟩)
    ∧ (nullCount [Cell.null, Cell.num 3] ≠ 0 →
        List.lookup "FreightCost" cfgW9.column_overrides = none →
        isNumericCol [Cell.null, Cell.num 3] = true →
        (handle_missing_values cfgW9 dfW9).cols[0]?
          = some ⟨"FreightCost", applyStrategy cfgW9.numeric_strategy [Cell.null, Cell.num 3]⟩)
    ∧ (nullCount [Cell.null, Cell.num 3] ≠ 0 →
        List.lookup "FreightCost" cfgW9.column_overrides = none →
        isNumericCol [Cell.null, Cell.num 3] = false →
        (handle_missing_values cfgW9 dfW9).cols[0]?
          = some ⟨"FreightCost", applyStrategy cfgW9.text_strategy [Cell.null, Cell.num 3]⟩) :=
  c9_strategy_precedence cfgW9 dfW9 0 ⟨"FreightCost", [Cell.null, Cell.num 3]⟩ "median" rfl

/-! ## C10 -/

/-- C10: a strategy name outside the six recognized ones (e.g. a misspelled
override) falls through the if/elif chain: the column's nulls are left
untouched, no error is raised, exactly the behavior of the flag strategy. -/
theorem c10_unrecognized_strategy (cfg : Config) (df : DataFrame) (i : ℕ)
    (c : Col) (s : String) (hc : df.cols[i]? = some c)
    (ho : List.lookup c.name cfg.column_overrides = some s)
    (hs : s ≠ "zero" ∧ s ≠ "mean" ∧ s ≠ "median" ∧ s ≠ "unknown"
          ∧ s ≠ "drop" ∧ s ≠ "flag") :
    (handle_missing_values cfg df).cols[i]? = some c
    ∧ applyStrategy s c.cells = c.cells
    ∧ applyStrategy s c.cells = applyStrategy "flag" c.cells := by
  have happ : applyStrategy s c.cells = c.cells := by
    rw [applyStrategy, if_neg hs.1, if_neg hs.2.1, if_neg hs.2.2.1, if_neg hs.2.2.2.1]
  have hflag : applyStrategy "flag" c.cells = c.cells := by
    rw [applyStrategy, if_neg (by decide : ¬("flag" = "zero")),
      if_neg (by decide : ¬("flag" = "mean")),
      if_neg (by decide : ¬("flag" = "median")),
      if_neg (by decide : ¬("flag" = "unknown"))]
  have hmap : (handle_missing_values cfg df).cols[i]? = some (resolveCol cfg c) := by
    simp [handle_missing_values, List.getElem?_map, hc]
  refine ⟨?_, happ, by rw [happ, hflag]⟩
  rw [hmap, resolveCol]
  split
  · rfl
  · rw [selectStrategy, ho, happ]

def dfW10 : DataFrame := ⟨[⟨"FreightCost", [Cell.null, Cell.num 2]⟩]⟩

def cfgW10 : Config := { column_overrides := [("FreightCost", "meann")] }

/-- Witness for C10: a misspelled override leaves the column untouched. -/
theorem c10_unrecognized_strategy_witness :
    (handle_missing_values cfgW10 dfW10).cols[0]?
        = some ⟨"FreightCost", [Cell.null, Cell.num 2]⟩
    ∧ applyStrategy "meann" [Cell.null, Cell.num 2] = [Cell.null, Cell.num 2]
    ∧ applyStrategy "meann" [Cell.null, Cell.num 2]
        = applyStrategy "flag" [Cell.null, Cell.num 2] :=
  c10_unrecognized_strategy cfgW10 dfW10 0 ⟨"FreightCost", [Cell.null, Cell.num 2]⟩
    "meann" rfl rfl
    (by refine ⟨?_, ?_, ?_, ?_, ?_, ?_⟩ <;> decide)

/-! ## C4 -/

/-- C4 (amended): after handle_missing_values no column whose selected
strategy is zero or unknown contains a null; the same holds for mean and
median provided the column has at least one non-null numeric value (the
mean/median of a column with none is NaN and fillna(NaN) is a no-op).
Columns with strategy flag or drop may still contain nulls. -/
theorem c4_null_coverage (cfg : Config) (df : DataFrame) (i : ℕ) (c : Col)
    (hc : df.cols[i]? = some c)
    (hs : selectStrategy cfg c.name c.cells = "zero"
        ∨ selectStrategy cfg c.name c.cells = "unknown"
        ∨ ((selectStrategy cfg c.name c.cells = "mean"
              ∨ selectStrategy cfg c.name c.cells = "median")
            ∧ ∃ q : ℚ, Cell.num q ∈ c.cells)) :
    ∃ c', (handle_missing_values cfg df).cols[i]? = some c'
        ∧ nullCount c'.cells = 0 := by
  have hmap : (handle_missing_values cfg df).cols[i]? = some (resolveCol cfg c) := by
    simp [handle_missing_values, List.getElem?_map, hc]
  refine ⟨resolveCol cfg c, hmap, ?_⟩
  rw [resolveCol]
  split
  · assumption
  rcases hs with hz | hu | ⟨hmm, q, hq⟩
  · rw [hz, applyStrategy, if_pos rfl]
    exact nullCount_fillNulls _ (by decide) _
  · rw [hu, applyStrategy, if_neg (by decide : ¬("unknown" = "zero")),
      if_neg (by decide : ¬("unknown" = "mean")),
      if_neg (by decide : ¬("unknown" = "median")), if_pos rfl]
    exact nullCount_fillNulls _ (by decide) _
  · rcases hmm with hm | hm
    · obtain ⟨m, hmean⟩ := colMean_isSome c.cells q hq
      rw [hm, applyStrategy, if_neg (by decide : ¬("mean" = "zero")), if_pos rfl, hmean]
      exact nullCount_fillNulls _ (by simp) _
    · obtain ⟨m, hmed⟩ := colMedian_isSome c.cells q hq
      rw [hm, applyStrategy, if_neg (by decide : ¬("median" = "zero")),
        if_neg (by decide : ¬("median" = "mean")), if_pos rfl, hmed]
      exact nullCount_fillNulls _ (by simp) _

def dfW4 : DataFrame := ⟨[⟨"TotalSalesDollars", [Cell.null, Cell.num 7]⟩]⟩

/-- Witness for C4 at a concrete frame under the default configuration
(numeric default strategy zero). -/
theorem c4_null_coverage_witness :
    ∃ c', (handle_missing_values {} dfW4).cols[0]? = some c'
        ∧ nullCount c'.cells = 0 :=
  c4_null_coverage {} dfW4 0 ⟨"TotalSalesDollars", [Cell.null, Cell.num 7]⟩
    rfl (Or.inl rfl)

def dfC4 : DataFrame := ⟨[⟨"TotalSalesDollars", [Cell.null]⟩]⟩

def cfgC4 : Config := { column_overrides := [("TotalSalesDollars", "mean")] }

/-- Counterexample to C4 as stated: a column whose selected strategy is mean
but which is entirely null keeps its null after handle_missing_values. -/
theorem c4_counterexample :
    selectStrategy cfgC4 "TotalSalesDollars" [Cell.null] = "mean"
    ∧ (handle_missing_values cfgC4 dfC4).cols[0]?
        = some ⟨"TotalSalesDollars", [Cell.null]⟩ := by
  constructor
  · rfl
  · simp [handle_missing_values, dfC4, resolveCol, nullCount, selectStrategy, cfgC4,
      applyStrategy, colMean, numericVals]

/-! ## Helper lemmas: column assignment -/

theorem find?_overwrite_self (cols : List Col) (n : String) (cells : List Cell)
    (h : cols.any (fun c => c.name = n) = true) :
    (cols.map (fun c => if c.name = n then ⟨n, cells⟩ else c)).find?
      (fun c => c.name = n) = some ⟨n, cells⟩ := by
  induction cols with
  | nil => simp at h
  | cons c cs ih =>
    by_cases hc : c.name = n
    · rw [List.map_cons, if_pos hc, List.find?_cons_of_pos _ (by simp)]
    · rw [List.map_cons, if_neg hc, List.find?_cons_of_neg _ (by simp [hc])]
      rw [List.any_cons] at h
      simp [hc] at h
      exact ih (List.any_eq_true.2 (by simpa using h))

theorem find?_overwrite_ne (cols : List Col) (n m : String) (cells : List Cell)
    (h : m ≠ n) :
    (cols.map (fun c => if c.name = n then ⟨n, cells⟩ else c)).find?
      (fun c => c.name = m) = cols.find? (fun c => c.name = m) := by
  induction cols with
  | nil => rfl
  | cons c cs ih =>
    by_cases hc : c.name = n
    · have h2 : ¬(c.name = m) := by rw [hc]; exact fun hh => h hh.symm
      rw [List.map_cons, if_pos hc,
        List.find?_cons_of_neg _ (by simpa using Ne.symm h),
        List.find?_cons_of_neg _ (by simp [h2]), ih]
    · rw [List.map_cons, if_neg hc]
      by_cases hm : c.name = m
      · rw [List.find?_cons_of_pos _ (by simp [hm]), List.find?_cons_of_pos _ (by simp [hm])]
      · rw [List.find?_cons_of_neg _ (by simp [hm]), List.find?_cons_of_neg _ (by simp [hm]), ih]

theorem getCol_setCol_self (df : DataFrame) (n : String) (cells : List Cell) :
    getCol (setCol df n cells) n = some cells := by
  unfold setCol getCol
  split
  · next h => rw [find?_overwrite_self df.cols n cells h]; rfl
  · next h =>
    have hnone : df.cols.find? (fun c => c.name = n) = none := by
      rw [List.find?_eq_none]
      intro c hcmem hcp
      have : df.cols.any (fun c => c.name = n) = true :=
        List.any_eq_true.2 ⟨c, hcmem, hcp⟩
      exact h this
    rw [List.find?_append, hnone]
    simp

theorem getCol_setCol_ne (df : DataFrame) (n m : String) (cells : List Cell)
    (h : m ≠ n) : getCol (setCol df n cells) m = getCol df m := by
  unfold setCol getCol
  split
  · rw [find?_overwrite_ne df.cols n m cells h]
  · rw [List.find?_append]
    have hlast : List.find? (fun c => c.name = m) [(⟨n, cells⟩ : Col)] = none := by
      rw [List.find?_cons_of_neg _ (by simpa using Ne.symm h)]
      rfl
    rw [hlast]
    cases df.cols.find? (fun c => c.name = m) <;> rfl

theorem getCell_setCol_self (df : DataFrame) (n : String) (cells : List Cell) (i : ℕ) :
    getCell (setCol df n cells) n i = cells[i]? := by
  rw [getCell, getCol_setCol_self]
  rfl

theorem getCell_setCol_ne (df : DataFrame) (n m : String) (cells : List Cell) (i : ℕ)
    (h : m ≠ n) : getCell (setCol df n cells) m i = getCell df m i := by
  rw [getCell, getCol_setCol_ne df n m cells h, getCell]

/-! ## Helper lemmas: derived series -/

theorem replace0_getElem (dens : List Cell) (zr : ℚ) (i : ℕ) (b : ℚ)
    (hb : dens[i]? = some (Cell.num b)) :
    (dens.map (cellReplace0 zr))[i]? = some (Cell.num (if b = 0 then zr else b)) := by
  rw [List.getElem?_map, hb]
  by_cases h0 : b = 0 <;> simp [cellReplace0, h0]

theorem derivedSeries_getElem (nums dens : List Cell) (zr : ℚ) (p : ℕ) (i : ℕ)
    (a b : ℚ) (ha : nums[i]? = some (Cell.num a)) (hb : dens[i]? = some (Cell.num b))
    (hd : (if b = 0 then zr else b) ≠ 0) :
    ((List.zipWith cellDiv nums (dens.map (cellReplace0 zr))).map (cellRound p))[i]?
      = some (Cell.num (roundQ p (a / (if b = 0 then zr else b)))) := by
  rw [List.getElem?_map, List.getElem?_zipWith, ha, replace0_getElem dens zr i b hb]
  simp [cellDiv, hd, cellRound]

theorem pmSeries_getElem (nums dens : List Cell) (zr : ℚ) (p : ℕ) (i : ℕ)
    (a b : ℚ) (ha : nums[i]? = some (Cell.num a)) (hb : dens[i]? = some (Cell.num b))
    (hd : (if b = 0 then zr else b) ≠ 0) :
    ((List.zipWith cellDiv nums (dens.map (cellReplace0 zr))).map
        (fun c => cellRound p (cellMul100 c)))[i]?
      = some (Cell.num (roundQ p (a / (if b = 0 then zr else b) * 100))) := by
  rw [List.getElem?_map, List.getElem?_zipWith, ha, replace0_getElem dens zr i b hb]
  simp [cellDiv, hd, cellMul100, cellRound]

theorem gpSeries_getElem (nums dens : List Cell) (i : ℕ) (a b : ℚ)
    (ha : nums[i]? = some (Cell.num a)) (hb : dens[i]? = some (Cell.num b)) :
    (List.zipWith cellSub nums dens)[i]? = some (Cell.num (a - b)) := by
  rw [List.getElem?_zipWith, ha, hb]
  rfl

/-! ## C1 -/

/-- Core cell-level specification of the three zero-substituted metrics:
shared between the C1 law and the concrete scenario computations. -/
theorem metrics_cells_spec (cfg : Config) (df df' : DataFrame) (i : ℕ)
    (tsd tpd tsq tpq : ℚ)
    (hrun : calculate_metrics cfg df = some df')
    (htsd : getCell df "TotalSalesDollars" i = some (Cell.num tsd))
    (htpd : getCell df "TotalPurchaseDollars" i = some (Cell.num tpd))
    (htsq : getCell df "TotalSalesQuantity" i = some (Cell.num tsq))
    (htpq : getCell df "TotalPurchaseQuantity" i = some (Cell.num tpq))
    (hd1 : (if tsd = 0 then cfg.pm_zero_replacement else tsd) ≠ 0)
    (hd2 : (if tpq = 0 then cfg.st_zero_replacement else tpq) ≠ 0)
    (hd3 : (if tpd = 0 then cfg.spr_zero_replacement else tpd) ≠ 0) :
    getCell df' "ProfitMargin" i = some (Cell.num (roundQ cfg.pm_decimal_places
        ((tsd - tpd) / (if tsd = 0 then cfg.pm_zero_replacement else tsd) * 100)))
    ∧ getCell df' "StockTurnover" i = some (Cell.num (roundQ cfg.st_decimal_places
        (tsq / (if tpq = 0 then cfg.st_zero_replacement else tpq))))
    ∧ getCell df' "Sales_To_Purchase_Ratio" i
        = some (Cell.num (roundQ cfg.spr_decimal_places
            (tsd / (if tpd = 0 then cfg.spr_zero_replacement else tpd))))
    ∧ getCell df' "TotalSalesDollars" i = some (Cell.num tsd)
    ∧ getCell df' "TotalPurchaseDollars" i = some (Cell.num tpd)
    ∧ getCell df' "TotalPurchaseQuantity" i = some (Cell.num tpq) := by
  rw [getCell, Option.bind_eq_some] at htsd htpd htsq htpq
  obtain ⟨tsdC, hc1, hi1⟩ := htsd
  obtain ⟨tpdC, hc2, hi2⟩ := htpd
  obtain ⟨tsqC, hc3, hi3⟩ := htsq
  obtain ⟨tpqC, hc4, hi4⟩ := htpq
  rw [calculate_metrics, hc1, hc2, hc3, hc4, Option.some.injEq] at hrun
  subst hrun
  have hgp : (List.zipWith cellSub tsdC tpdC)[i]? = some (Cell.num (tsd - tpd)) :=
    gpSeries_getElem tsdC tpdC i tsd tpd hi1 hi2
  refine ⟨?_, ?_, ?_, ?_, ?_, ?_⟩
  · rw [getCell_setCol_ne _ _ _ _ _ (by decide),
      getCell_setCol_ne _ _ _ _ _ (by decide), getCell_setCol_self]
    exact pmSeries_getElem _ _ _ _ _ _ _ hgp hi1 hd1
  · rw [getCell_setCol_ne _ _ _ _ _ (by decide), getCell_setCol_self]
    exact derivedSeries_getElem _ _ _ _ _ _ _ hi3 hi4 hd2
  · rw [getCell_setCol_self]
    exact derivedSeries_getElem _ _ _ _ _ _ _ hi1 hi2 hd3
  · rw [getCell_setCol_ne _ _ _ _ _ (by decide),
      getCell_setCol_ne _ _ _ _ _ (by decide),
      getCell_setCol_ne _ _ _ _ _ (by decide),
      getCell_setCol_ne _ _ _ _ _ (by decide), getCell, hc1]
    exact hi1
  · rw [getCell_setCol_ne _ _ _ _ _ (by decide),
      getCell_setCol_ne _ _ _ _ _ (by decide),
      getCell_setCol_ne _ _ _ _ _ (by decide),
      getCell_setCol_ne _ _ _ _ _ (by decide), getCell, hc2]
    exact hi2
  · rw [getCell_setCol_ne _ _ _ _ _ (by decide),
      getCell_setCol_ne _ _ _ _ _ (by decide),
      getCell_setCol_ne _ _ _ _ _ (by decide),
      getCell_setCol_ne _ _ _ _ _ (by decide), getCell, hc4]
    exact hi4

/-- C1: for every row, calculate_metrics sets ProfitMargin to
round((GrossProfit / d) * 100, places) with d = TotalSalesDollars when that
is nonzero and d = the configured zero_replacement otherwise; analogously
StockTurnover against TotalPurchaseQuantity and Sales_To_Purchase_Ratio
against TotalPurchaseDollars; the substitution touches only the denominator,
never the numerator nor the stored columns. (The hypotheses hd1-hd3 exclude
a substituted denominator that is itself zero, whose float quotient is not a
finite number and falls outside the rational embedding.) -/
theorem c1_metric_laws (cfg : Config) (df df' : DataFrame) (i : ℕ)
    (tsd tpd tsq tpq : ℚ)
    (hrun : calculate_metrics cfg df = some df')
    (htsd : getCell df "TotalSalesDollars" i = some (Cell.num tsd))
    (htpd : getCell df "TotalPurchaseDollars" i = some (Cell.num tpd))
    (htsq : getCell df "TotalSalesQuantity" i = some (Cell.num tsq))
    (htpq : getCell df "TotalPurchaseQuantity" i = some (Cell.num tpq))
    (hd1 : (if tsd = 0 then cfg.pm_zero_replacement else tsd) ≠ 0)
    (hd2 : (if tpq = 0 then cfg.st_zero_replacement else tpq) ≠ 0)
    (hd3 : (if tpd = 0 then cfg.spr_zero_replacement else tpd) ≠ 0) :
    getCell df' "ProfitMargin" i = some (Cell.num (roundQ cfg.pm_decimal_places
        ((tsd - tpd) / (if tsd = 0 then cfg.pm_zero_replacement else tsd) * 100)))
    ∧ getCell df' "StockTurnover" i = some (Cell.num (roundQ cfg.st_decimal_places
        (tsq / (if tpq = 0 then cfg.st_zero_replacement else tpq))))
    ∧ getCell df' "Sales_To_Purchase_Ratio" i
        = some (Cell.num (roundQ cfg.spr_decimal_places
            (tsd / (if tpd = 0 then cfg.spr_zero_replacement else tpd))))
    ∧ getCell df' "TotalSalesDollars" i = some (Cell.num tsd)
    ∧ getCell df' "TotalPurchaseDollars" i = some (Cell.num tpd)
    ∧ getCell df' "TotalPurchaseQuantity" i = some (Cell.num tpq) :=
  metrics_cells_spec cfg df df' i tsd tpd tsq tpq hrun htsd htpd htsq htpq hd1 hd2 hd3

def dfW1 : DataFrame :=
  ⟨[⟨"TotalSalesDollars", [Cell.num 1200]⟩,
    ⟨"TotalPurchaseDollars", [Cell.num 1000]⟩,
    ⟨"TotalSalesQuantity", [Cell.num 80]⟩,
    ⟨"TotalPurchaseQuantity", [Cell.num 100]⟩]⟩

def dfW1' : DataFrame := (calculate_metrics {} dfW1).getD ⟨[]⟩

/-- Witness for C1 at a concrete one-row frame under default configuration. -/
theorem c1_metric_laws_witness :
    getCell dfW1' "ProfitMargin" 0 = some (Cell.num (roundQ 2
        (((1200:ℚ) - 1000) / (if (1200:ℚ) = 0 then 1 else 1200) * 100)))
    ∧ getCell dfW1' "StockTurnover" 0 = some (Cell.num (roundQ 4
        ((80:ℚ) / (if (100:ℚ) = 0 then 1 else 100))))
    ∧ getCell dfW1' "Sales_To_Purchase_Ratio" 0 = some (Cell.num (roundQ 4
        ((1200:ℚ) / (if (1000:ℚ) = 0 then 1 else 1000))))
    ∧ getCell dfW1' "TotalSalesDollars" 0 = some (Cell.num 1200)
    ∧ getCell dfW1' "TotalPurchaseDollars" 0 = some (Cell.num 1000)
    ∧ getCell dfW1' "TotalPurchaseQuantity" 0 = some (Cell.num 100) :=
  c1_metric_laws {} dfW1 dfW1' 0 1200 1000 80 100 rfl rfl rfl rfl rfl
    (by norm_num) (by norm_num) (by norm_num)

/-! ## C2 -/

/-- Core cell-level specification of the GrossProfit column: shared between
the C2 law and the concrete scenario computations. -/
theorem gross_profit_cell_spec (cfg : Config) (df df' : DataFrame) (i : ℕ) (tsd tpd : ℚ)
    (hrun : calculate_metrics cfg df = some df')
    (htsd : getCell df "TotalSalesDollars" i = some (Cell.num tsd))
    (htpd : getCell df "TotalPurchaseDollars" i = some (Cell.num tpd)) :
    getCell df' "GrossProfit" i = some (Cell.num (tsd - tpd)) := by
  rw [getCell, Option.bind_eq_some] at htsd htpd
  obtain ⟨tsdC, hc1, hi1⟩ := htsd
  obtain ⟨tpdC, hc2, hi2⟩ := htpd
  rw [calculate_metrics, hc1, hc2] at hrun
  cases hc3 : getCol df "TotalSalesQuantity" with
  | none => rw [hc3] at hrun; exact absurd hrun (by simp)
  | some tsqC =>
  cases hc4 : getCol df "TotalPurchaseQuantity" with
  | none => rw [hc3, hc4] at hrun; exact absurd hrun (by simp)
  | some tpqC =>
  rw [hc3, hc4, Option.some.injEq] at hrun
  subst hrun
  rw [getCell_setCol_ne _ _ _ _ _ (by decide),
    getCell_setCol_ne _ _ _ _ _ (by decide),
    getCell_setCol_ne _ _ _ _ _ (by decide), getCell_setCol_self]
  exact gpSeries_getElem tsdC tpdC i tsd tpd hi1 hi2

/-- C2: for every row, calculate_metrics sets GrossProfit to exactly
TotalSalesDollars minus TotalPurchaseDollars, with no rounding and no
zero-substitution. -/
theorem c2_gross_profit (cfg : Config) (df df' : DataFrame) (i : ℕ) (tsd tpd : ℚ)
    (hrun : calculate_metrics cfg df = some df')
    (htsd : getCell df "TotalSalesDollars" i = some (Cell.num tsd))
    (htpd : getCell df "TotalPurchaseDollars" i = some (Cell.num tpd)) :
    getCell df' "GrossProfit" i = some (Cell.num (tsd - tpd)) :=
  gross_profit_cell_spec cfg df df' i tsd tpd hrun htsd htpd

/-- Witness for C2 at the same concrete frame. -/
theorem c2_gross_profit_witness :
    getCell dfW1' "GrossProfit" 0 = some (Cell.num ((1200:ℚ) - 1000)) :=
  c2_gross_profit {} dfW1 dfW1' 0 1200 1000 rfl rfl rfl

/-! ## C5 -/

/-- Scenario A: the single joined row with TotalPurchaseQuantity 100,
TotalPurchaseDollars 1000.0, null sales fields and FreightCost 50. -/
def scenarioA : DataFrame :=
  ⟨[⟨"TotalPurchaseQuantity", [Cell.num 100]⟩,
    ⟨"TotalPurchaseDollars", [Cell.num 1000]⟩,
    ⟨"TotalSalesQuantity", [Cell.null]⟩,
    ⟨"TotalSalesDollars", [Cell.null]⟩,
    ⟨"TotalSalesPrice", [Cell.null]⟩,
    ⟨"TotalExciseTax", [Cell.null]⟩,
    ⟨"FreightCost", [Cell.num 50]⟩]⟩

/-- C5 (code bug): the claim states the intended outcome (sales fields
zero-filled, then GrossProfit -1000, ProfitMargin -100000, StockTurnover 0,
Sales_To_Purchase_Ratio 0), but at this input every sales column is NULL in
all rows, so it reads back as object dtype holding None: is_numeric_dtype is
False, the default text strategy applies, and fillna puts the literal
UNKNOWN text into the sales columns; calculate_metrics then raises TypeError
on df[TotalSalesDollars] - df[TotalPurchaseDollars] instead of producing the
claimed numbers. This theorem evaluates the resolver at the failing input
and exhibits the misrouted fill. -/
theorem c5_scenario_a :
    isNumericCol [Cell.null] = false
    ∧ selectStrategy {} "TotalSalesDollars" [Cell.null] = "unknown"
    ∧ getCell (handle_missing_values {} scenarioA) "TotalSalesDollars" 0
        = some (Cell.str "UNKNOWN")
    ∧ getCell (handle_missing_values {} scenarioA) "TotalSalesQuantity" 0
        = some (Cell.str "UNKNOWN")
    ∧ getCell (handle_missing_values {} scenarioA) "TotalPurchaseDollars" 0
        = some (Cell.num 1000) :=
  ⟨rfl, rfl, rfl, rfl, rfl⟩

/-! ## C6 -/

/-- C6: if the aggregation yields zero rows, the pipeline warns and returns
the empty result at once, skipping missing-value resolution, metrics
computation and persistence, and raising no error. -/
theorem c6_empty_early_exit (cfg : Config) (t : Tables)
    (h : create_vendor_summary t = []) :
    run_summary_pipeline cfg t =
      { aggregated := [], warnedEmpty := true, cleaned := none,
        persisted := none } := by
  simp only [run_summary_pipeline, h]
  rfl

def tW6 : Tables := ⟨[], [], [], []⟩

/-- Witness for C6 on empty fact tables. -/
theorem c6_empty_early_exit_witness :
    run_summary_pipeline {} tW6 =
      { aggregated := [], warnedEmpty := true, cleaned := none,
        persisted := none } :=
  c6_empty_early_exit {} tW6 rfl

/-! ## C7 -/

/-- C7 (amended): whenever the pipeline persists the summary, it does so with
to_sql if_exists mode replace into the configured output table; the persisted
mode never depends on etl.load_mode, which only the raw-data ingestion module
reads. -/
theorem c7_always_replace (cfg : Config) (t : Tables) (s m : String)
    (h : (run_summary_pipeline cfg t).persisted = some (s, m)) :
    m = "replace" ∧ s = cfg.summary_table := by
  simp only [run_summary_pipeline] at h
  split at h
  · simp at h
  · split at h
    · simp at h
    · simp only [Option.some.injEq] at h
      rw [Prod.mk.injEq] at h
      exact ⟨h.2.symm, h.1.symm⟩

def cfg7 : Config := { load_mode := "append" }

/-- Complete-data input: the purchase row has a matching sales row and a
matching invoice row, so no column of the joined frame is all-NULL and the
run reaches the persistence call. -/
def t7 : Tables :=
  { purchases := [⟨1, "V", 100, "D", 5, 10, 50⟩],
    purchase_prices := [⟨100, 1, 7⟩],
    sales := [⟨1, 100, 8, 60, 12, 2⟩],
    vendor_invoice := [⟨1, 5⟩] }

set_option maxHeartbeats 1000000 in
theorem run7_persisted :
    (run_summary_pipeline cfg7 t7).persisted
      = some ("vendor_sales_summary", "replace") := rfl

/-- Counterexample to C7 as stated: with etl.load_mode set to append, a run
that persists still calls to_sql with if_exists replace. -/
theorem c7_counterexample :
    cfg7.load_mode = "append"
    ∧ (run_summary_pipeline cfg7 t7).persisted
        = some ("vendor_sales_summary", "replace") :=
  ⟨rfl, run7_persisted⟩

/-- Witness for the amended C7 on the same concrete run. -/
theorem c7_always_replace_witness :
    "replace" = "replace" ∧ "vendor_sales_summary" = cfg7.summary_table :=
  c7_always_replace cfg7 t7 "vendor_sales_summary" "replace" run7_persisted

/-! ## C3: counting lemmas -/

theorem filter_length_le_one {β κ : Type} (l : List β) (f : β → κ) (c : κ)
    (p : β → Bool) (h : (l.map f).Nodup) (hp : ∀ x, p x = true → f x = c) :
    (l.filter p).length ≤ 1 := by
  induction l with
  | nil => simp
  | cons x xs ih =>
    rw [List.map_cons, List.nodup_cons] at h
    by_cases hx : p x = true
    · rw [List.filter_cons_of_pos hx]
      have hnil : xs.filter p = [] := by
        rw [List.filter_eq_nil_iff]
        intro y hy hpy
        have hmem : f x ∈ xs.map f := by
          rw [hp x hx, ← hp y hpy]
          exact List.mem_map_of_mem f hy
        exact absurd hmem h.1
      rw [hnil]
      simp
    · rw [List.filter_cons_of_neg hx]
      exact ih h.2

theorem countP_joinOne {α β : Type} (r : List β) (onM : α → β → Bool) (a : α)
    (p : α × Option β → Bool) (q : α → Bool)
    (hu : (r.filter (onM a)).length ≤ 1)
    (hp : ∀ ob, p (a, ob) = q a) :
    (joinOne r onM a).countP p = if q a then 1 else 0 := by
  simp only [joinOne]
  cases hms : r.filter (onM a) with
  | nil => simp [List.countP_cons, hp]
  | cons x t =>
    have ht : t = [] := by
      rw [hms] at hu
      simpa using hu
    subst ht
    simp [List.countP_cons, hp]

/-- A left join against a right side whose match sets are at most singletons
(pre-aggregated keys) neither drops nor duplicates left rows, as counted by
any predicate that only looks at the left component. -/
theorem countP_leftJoin {α β : Type} (l : List α) (r : List β) (onM : α → β → Bool)
    (p : α × Option β → Bool) (q : α → Bool)
    (hu : ∀ a, (r.filter (onM a)).length ≤ 1)
    (hp : ∀ a ob, p (a, ob) = q a) :
    (leftJoin l r onM).countP p = l.countP q := by
  induction l with
  | nil => rfl
  | cons a l ih =>
    have hstep : leftJoin (a :: l) r onM = joinOne r onM a ++ leftJoin l r onM := by
      simp [leftJoin]
    rw [hstep, List.countP_append, ih,
      countP_joinOne r onM a p q (hu a) (hp a), List.countP_cons, Nat.add_comm]

theorem nodup_map_section {γ κ : Type} (keys : List κ) (mk : κ → γ) (f : γ → κ)
    (hsec : ∀ k, f (mk k) = k) (h : keys.Nodup) : ((keys.map mk).map f).Nodup := by
  rw [List.map_map]
  have h2 : keys.map (f ∘ mk) = keys.map id := List.map_congr_left (fun k _ => hsec k)
  rw [h2, List.map_id]
  exact h

/-- The SalesSummary aggregate has at most one row per (VendorNo, Brand). -/
theorem salesSummary_keys_nodup (s : List SalesRec) :
    ((salesSummary s).map (fun r => (r.VendorNo, r.Brand))).Nodup := by
  unfold salesSummary
  exact nodup_map_section _ _ _ (fun k => rfl) (List.nodup_dedup _)

/-- The FreightSummary aggregate has at most one row per VendorNumber. -/
theorem freightSummary_keys_nodup (inv : List InvoiceRec) :
    ((freightSummary inv).map (fun r => r.VendorNumber)).Nodup := by
  unfold freightSummary
  exact nodup_map_section _ _ _ (fun k => rfl) (List.nodup_dedup _)

/-- C3 (amended): for every instance of the fact tables, each (VendorNumber,
Brand) pair occurs in the final joined output exactly as many times as it
occurs in the purchase aggregate: the two left joins never drop or duplicate
a PurchaseSummary row. In particular a pair held by exactly one
PurchaseSummary row appears exactly once; but the seven-column grouping key
of PurchaseSummary can repeat a (VendorNumber, Brand) pair, so the pair
itself need not be unique in the output. -/
theorem c3_join_multiplicity (t : Tables) (v b : ℤ) :
    (create_vendor_summary t).countP (fun r => r.VendorNumber = v ∧ r.Brand = b)
      = (purchaseSummary t.purchases t.purchase_prices).countP
          (fun r => r.VendorNumber = v ∧ r.Brand = b) := by
  have hu2 : ∀ a : PSRow × Option SSRow,
      ((freightSummary t.vendor_invoice).filter
        (fun f => decide (a.1.VendorNumber = f.VendorNumber))).length ≤ 1 := by
    intro a
    apply filter_length_le_one _ (fun f : FreightRow => f.VendorNumber)
      a.1.VendorNumber
    · exact freightSummary_keys_nodup _
    · intro x hx
      exact (of_decide_eq_true hx).symm
  have hu1 : ∀ p : PSRow,
      ((salesSummary t.sales).filter
        (fun s => decide (p.VendorNumber = s.VendorNo ∧ p.Brand = s.Brand))).length
        ≤ 1 := by
    intro p
    apply filter_length_le_one _ (fun s : SSRow => (s.VendorNo, s.Brand))
      (p.VendorNumber, p.Brand)
    · exact salesSummary_keys_nodup _
    · intro x hx
      have hx2 := of_decide_eq_true hx
      rw [hx2.1, hx2.2]
  simp only [create_vendor_summary]
  rw [List.Perm.countP_eq _ (List.perm_insertionSort _ _), List.countP_map]
  rw [countP_leftJoin _ _ _ _
    (fun x : PSRow × Option SSRow => decide (x.1.VendorNumber = v ∧ x.1.Brand = b))
    hu2 (fun a ob => rfl)]
  rw [countP_leftJoin _ _ _ _
    (fun x : PSRow => decide (x.VendorNumber = v ∧ x.Brand = b))
    hu1 (fun a ob => rfl)]

def t3 : Tables :=
  { purchases := [⟨1, "V", 100, "D", 5, 10, 50⟩, ⟨1, "V", 100, "D", 6, 10, 60⟩],
    purchase_prices := [⟨100, 1, 7⟩],
    sales := [],
    vendor_invoice := [] }

/-- Counterexample to C3 as stated: two purchase lines for the same
(VendorNumber, Brand) with different PurchasePrice produce two purchase
aggregate rows for the pair (1, 100), and the pair then appears twice, not
exactly once, in the final output. -/
theorem c3_counterexample :
    (purchaseSummary t3.purchases t3.purchase_prices).countP
        (fun r => r.VendorNumber = 1 ∧ r.Brand = 100) = 2
    ∧ (create_vendor_summary t3).countP
        (fun r => r.VendorNumber = 1 ∧ r.Brand = 100) = 2 := by
  have hps : purchaseSummary t3.purchases t3.purchase_prices
      = [⟨1, "V", 100, "D", 5, 1, 7, 10, 50⟩, ⟨1, "V", 100, "D", 6, 1, 7, 10, 60⟩] := by
    have h0 : purchaseSummary t3.purchases t3.purchase_prices
        = [⟨1, "V", 100, "D", 5, 1, 7, 10 + 0, 50 + 0⟩,
           ⟨1, "V", 100, "D", 6, 1, 7, 10 + 0, 60 + 0⟩] := rfl
    rw [h0]
    norm_num
  constructor
  · rw [hps]
    decide
  · simp only [create_vendor_summary]
    rw [hps]
    decide
